import Mathlib

/-!
Verification of the `cdpcli` DataFlow `create-deployment` extension
(`src/cdpcli/extensions/df/createdeployment.py`).

The Python module is shallowly embedded: Python dicts become association
lists over a JSON-like `Value` type, remote calls go through an abstract
`World` of collaborator behaviours, and every remote call made during a
run is recorded in a trace.  Exceptions (`ClientError`,
`DfExtensionError`, uncaught `KeyError`) become an explicit error type
threaded through `Except`.
-/

set_option autoImplicit false
set_option maxHeartbeats 1000000

namespace Cdpcli

/-- JSON-like values, the universe of Python data handled by the module. -/
inductive Value where
  | null
  | str (s : String)
  | int (n : Int)
  | bool (b : Bool)
  | arr (vs : List Value)
  | obj (fields : List (String × Value))
deriving Repr

mutual

/-- Python `==` (deep structural equality) on values. -/
def valueBeq : Value → Value → Bool
  | .null, .null => true
  | .str a, .str b => a == b
  | .int a, .int b => a == b
  | .bool a, .bool b => a == b
  | .arr as, .arr bs => listBeq as bs
  | .obj fs, .obj gs => objBeq fs gs
  | _, _ => false

/-- Python `==` on lists of values. -/
def listBeq : List Value → List Value → Bool
  | [], [] => true
  | a :: as, b :: bs => valueBeq a b && listBeq as bs
  | _, _ => false

/-- Python `==` on dicts (as ordered association lists). -/
def objBeq : List (String × Value) → List (String × Value) → Bool
  | [], [] => true
  | (k, a) :: fs, (l, b) :: gs => k == l && valueBeq a b && objBeq fs gs
  | _, _ => false

end

/-- Python `x is None` for values handled by this module. -/
def isNull : Value → Bool
  | .null => true
  | _ => false

/-- A Python dict with string keys, as an insertion-ordered association list. -/
abbrev Dict := List (String × Value)

/-- Python `d.get(k)` / `d.get(k, None)`-style lookup returning the first binding. -/
def dictGet? (d : Dict) (k : String) : Option Value :=
  match d with
  | [] => none
  | (k', v) :: rest => if k' = k then some v else dictGet? rest k

/-- Python `d.get(k, dflt)`. -/
def dictGetD (d : Dict) (k : String) (dflt : Value) : Value :=
  (dictGet? d k).getD dflt

/-- Python `d[k] = v`: replace the binding in place, or append a new one. -/
def dictSet (d : Dict) (k : String) (v : Value) : Dict :=
  match d with
  | [] => [(k, v)]
  | (k', v') :: rest => if k' = k then (k, v) :: rest else (k', v') :: dictSet rest k v

/-- Python `del d[k]` on the duplicate-free dicts built by this module. -/
def dictDel (d : Dict) (k : String) : Dict :=
  match d with
  | [] => []
  | (k', v) :: rest => if k' = k then dictDel rest k else (k', v) :: dictDel rest k

/-- Python truthiness of a value (`if x:`). -/
def truthy : Value → Bool
  | .null => false
  | .str s => !(s == "")
  | .int n => !(n == 0)
  | .bool b => b
  | .arr vs => !vs.isEmpty
  | .obj fs => !fs.isEmpty

/-- View a value as a list (schema-typed responses store arrays here). -/
def asArr : Value → List Value
  | .arr vs => vs
  | _ => []

/-- View a value as a dict (schema-typed responses store objects here). -/
def asObj : Value → Dict
  | .obj fs => fs
  | _ => []

/-- View a value as a string (schema-typed fields store strings here). -/
def asStr : Value → String
  | .str s => s
  | _ => ""

/-- Python `str.capitalize()`: first character upper-cased, the rest lower-cased. -/
def pyCapitalize (s : String) : String :=
  match s.data with
  | [] => ""
  | c :: rest => String.mk (c.toUpper :: rest.map Char.toLower)

/-- Python `s[:1].lower()`: the first character (if any) lower-cased. -/
def pyFirstLower (s : String) : String :=
  match s.data with
  | [] => ""
  | c :: _ => String.mk [c.toLower]

/-- Exceptions raised during a run: `ClientError` from the API client
(carrying `http_status_code`), `DfExtensionError` raised by the extension,
and Python `KeyError` from a direct `d[k]` subscript on a missing key. -/
inductive PyError where
  | clientError (httpStatusCode : Int) (msg : String)
  | dfExtensionError (errMsg serviceName operationName : String)
  | keyError (k : String)
deriving Repr

/-- Membership of an error in the classes named by
`except (ClientError, DfExtensionError)` clauses. -/
def isCaught : PyError → Bool
  | .clientError _ _ => true
  | .dfExtensionError _ _ _ => true
  | .keyError _ => false

/-- Membership in the class named by a bare `except ClientError` clause. -/
def isClientError : PyError → Bool
  | .clientError _ _ => true
  | _ => false

/-- A `ClientError` whose `http_status_code` is `409` (conflict). -/
def is409 : PyError → Bool
  | .clientError c _ => c == 409
  | _ => false

/-- The asset size-limit violation raised by `_upload_assets`
(a `DfExtensionError` carrying `operation_name='uploadAsset'`). -/
def isAssetTooLarge : PyError → Bool
  | .dfExtensionError _ _ op => op == "uploadAsset"
  | _ => false

/-- Remote side effects performed during one run, in order. -/
inductive CallRec where
  | api (clientName opName : String) (payload : Dict)
  | upload (payload : Dict)
  | token (environmentCrn : Value)
deriving Repr

/-- Whether a trace entry is the compensation call aborting the deployment request. -/
def isAbortCall : CallRec → Bool
  | .api _ op _ => op == "abortDeploymentRequest"
  | _ => false

/-- Behaviour of one API client object: `make_api_call(op, payload)`
either returns a parsed response body (an object) or raises. -/
abbrev Client := String → Dict → Except PyError Dict

/-- Behaviours of all external collaborators of the saga. -/
structure World where
  dfClient : Client
  dfWorkloadClient : Client
  setToken : Except PyError Unit
  fileSize : String → Int
  expandPath : String → String
  splitPath : String → String × String
  uploadAsset : Dict → Except PyError Unit
  workloadServiceName : String

/-- Result of a run fragment: the remote calls it performed, and its
returned value or the exception it raised. -/
abbrev Run (α : Type) := List CallRec × Except PyError α

/-- `client.make_api_call(operation_name, parameters)`, recorded in the trace. -/
def make_api_call (c : Client) (clientName opName : String) (payload : Dict) :
    Run Dict :=
  ([CallRec.api clientName opName payload], c opName payload)

/-- Source constant `MAX_ASSET_SIZE = 150 * 1024 * 1024`. -/
def MAX_ASSET_SIZE : Int := 150 * 1024 * 1024

/-- Source constant `INITIAL_CONFIGURATION_VERSION = 0`. -/
def INITIAL_CONFIGURATION_VERSION : Int := 0

/-- Source constant `INITIAL_ASSET_VERSION = '0'`. -/
def INITIAL_ASSET_VERSION : String := "0"

/-- `CreateDeploymentOperationCaller._initiate_deployment`. -/
def initiate_deployment (w : World) (serviceCrn flowVersionCrn : Value) :
    Run Value :=
  let deploymentParameters : Dict :=
    [("serviceCrn", serviceCrn), ("flowVersionCrn", flowVersionCrn)]
  let (t, r) := make_api_call w.dfClient "df" "initiateDeployment" deploymentParameters
  match r with
  | .error e => (t, .error e)
  | .ok response => (t, .ok (dictGetD response "deploymentRequestCrn" .null))

/-- The `for service in services` scan inside `_get_environment_crn`. -/
def find_environment_crn (services : List Value) (serviceCrn : Value) : Option Value :=
  match services with
  | [] => none
  | service :: rest =>
    let crn := dictGetD (asObj service) "crn" .null
    if valueBeq serviceCrn crn then some (dictGetD (asObj service) "environmentCrn" .null)
    else find_environment_crn rest serviceCrn

/-- `CreateDeploymentOperationCaller._get_environment_crn`. -/
def get_environment_crn (w : World) (serviceCrn : Value) : Run Value :=
  let (t, r) := make_api_call w.dfClient "df" "listDeployableServicesForNewDeployments" []
  match r with
  | .error e => (t, .error e)
  | .ok response =>
    match find_environment_crn (asArr (dictGetD response "services" (.arr []))) serviceCrn with
    | some environmentCrn => (t, .ok environmentCrn)
    | none =>
      (t, .error (.dfExtensionError "Environment CRN not found for Service CRN"
        "df" "listDeployableServicesForNewDeployments"))

/-- `CreateDeploymentOperationCaller._get_deployment_request_details`. -/
def get_deployment_request_details (w : World) (deploymentRequestCrn environmentCrn : Value) :
    Run Unit :=
  let parameters : Dict :=
    [("deploymentRequestCrn", deploymentRequestCrn), ("environmentCrn", environmentCrn)]
  let (t, r) := make_api_call w.dfWorkloadClient "dfworkload" "getDeploymentRequestDetails"
    parameters
  (t, r.map fun _ => ())

/-- The per-KPI body of `_process_kpis`: enrich `alert.frequencyTolerance.unit`
with `label` and `abbreviation`; `unit` and `id` are read by direct subscript. -/
def process_kpi (kpi : Value) : Except PyError Value :=
  let kobj := asObj kpi
  let alert := dictGetD kobj "alert" .null
  if truthy alert then
    let aobj := asObj alert
    let frequencyTolerance := dictGetD aobj "frequencyTolerance" .null
    if truthy frequencyTolerance then
      let ftObj := asObj frequencyTolerance
      match dictGet? ftObj "unit" with
      | none => .error (.keyError "unit")
      | some unit =>
        let uobj := asObj unit
        match dictGet? uobj "id" with
        | none => .error (.keyError "id")
        | some idv =>
          let s := asStr idv
          let uobj := dictSet uobj "label" (.str (pyCapitalize s))
          let uobj := dictSet uobj "abbreviation" (.str (pyFirstLower s))
          .ok (.obj (dictSet kobj "alert" (.obj (dictSet aobj "frequencyTolerance"
            (.obj (dictSet ftObj "unit" (.obj uobj)))))))
    else .ok kpi
  else .ok kpi

/-- `CreateDeploymentOperationCaller._process_kpis` (fail-fast over the list,
mirroring the sequential Python loop). -/
def process_kpis (kpis : List Value) : Except PyError (List Value) :=
  match kpis with
  | [] => .ok []
  | kpi :: rest =>
    match process_kpi kpi with
    | .error e => .error e
    | .ok kpi' =>
      match process_kpis rest with
      | .error e => .error e
      | .ok rest' => .ok (kpi' :: rest')

/-- The recurring builder idiom `if x is not None: dc[k] = x`. -/
def setIfNotNull (d : Dict) (k : String) (v : Value) : Dict :=
  if isNull v then d else dictSet d k v

/-- The recurring builder idiom `if x: dc[k] = x`. -/
def setIfTruthy (d : Dict) (k : String) (v : Value) : Dict :=
  if truthy v then dictSet d k v else d

/-- The autoscaling block of `_get_deployment_configuration`: when
autoscaling is truthy, delete `staticNodeCount` and include each bound
only when truthy. -/
def applyAutoscaling (d : Dict) (autoScalingEnabled autoScaleMinNodes autoScaleMaxNodes :
    Value) : Dict :=
  if truthy autoScalingEnabled then
    setIfTruthy
      (setIfTruthy (dictDel d "staticNodeCount") "autoScaleMinNodes" autoScaleMinNodes)
      "autoScaleMaxNodes" autoScaleMaxNodes
  else d

/-- The inbound-hostname block of `_get_deployment_configuration`: when the
hostname is given, include it and pass `listenComponents` through. -/
def applyInboundHostname (d : Dict) (inboundHostname listenComponents : Value) : Dict :=
  if isNull inboundHostname then d
  else dictSet (dictSet d "inboundHostname" inboundHostname)
    "listenComponents" listenComponents

/-- `CreateDeploymentOperationCaller._get_deployment_configuration`. -/
def get_deployment_configuration (deploymentRequestCrn : Value) (parameters : Dict) :
    Except PyError Dict :=
  let dc : Dict :=
    [("name", dictGetD parameters "deploymentName" .null),
     ("deploymentRequestCrn", deploymentRequestCrn),
     ("configurationVersion", .int INITIAL_CONFIGURATION_VERSION),
     ("clusterSizeName", dictGetD parameters "clusterSizeName" (.str "EXTRA_SMALL")),
     ("staticNodeCount", dictGetD parameters "staticNodeCount" (.int 1))]
  let dc := setIfNotNull dc "nodeStorageProfileName"
    (dictGetD parameters "nodeStorageProfileName" .null)
  let dc := setIfNotNull dc "projectCrn" (dictGetD parameters "projectCrn" .null)
  let dc := applyInboundHostname dc (dictGetD parameters "inboundHostname" .null)
    (dictGetD parameters "listenComponents" .null)
  let autoScalingEnabled := dictGetD parameters "autoScalingEnabled" .null
  let dc := setIfNotNull dc "autoScalingEnabled" autoScalingEnabled
  let dc := applyAutoscaling dc autoScalingEnabled
    (dictGetD parameters "autoScaleMinNodes" .null)
    (dictGetD parameters "autoScaleMaxNodes" .null)
  let dc := setIfNotNull dc "autoStartFlow" (dictGetD parameters "autoStartFlow" .null)
  let dc := setIfTruthy dc "cfmNifiVersion" (dictGetD parameters "cfmNifiVersion" .null)
  let dc := setIfTruthy dc "parameterGroups"
    (dictGetD parameters "parameterGroups" .null)
  let kpis := dictGetD parameters "kpis" .null
  if truthy kpis then
    match process_kpis (asArr kpis) with
    | .error e => .error e
    | .ok kpis' => .ok (dictSet dc "kpis" (.arr kpis'))
  else .ok dc

/-- `CreateDeploymentOperationCaller._get_default_nar_configuration`. -/
def get_default_nar_configuration (w : World) (environmentCrn : Value)
    (customNarConfiguration : Dict) : Run Dict :=
  let defaultParameters : Dict := [("environmentCrn", environmentCrn)]
  let (t1, r1) := make_api_call w.dfWorkloadClient "dfworkload"
    "getDefaultCustomNarConfiguration" defaultParameters
  match r1 with
  | .error e => (t1, .error e)
  | .ok defaultConfiguration =>
    let cnc := dictSet customNarConfiguration "crn"
      (dictGetD defaultConfiguration "crn" .null)
    let defaultVersion := dictGetD defaultConfiguration "configurationVersion" .null
    let cnc := dictSet cnc "configurationVersion" defaultVersion
    let (t2, r2) := make_api_call w.dfWorkloadClient "dfworkload"
      "updateCustomNarConfiguration" cnc
    (t1 ++ t2, r2)

/-- `CreateDeploymentOperationCaller._process_custom_nar_configuration`.
Returns `none` when no custom configuration was requested. -/
def process_custom_nar_configuration (w : World) (environmentCrn : Value)
    (parameters : Dict) : Run (Option Dict) :=
  let customNarConfiguration := dictGetD parameters "customNarConfiguration" .null
  if truthy customNarConfiguration then
    let cnc := dictSet (asObj customNarConfiguration) "environmentCrn" environmentCrn
    let (t, r) := make_api_call w.dfWorkloadClient "dfworkload"
      "createCustomNarConfiguration" cnc
    match r with
    | .ok response => (t, .ok (some response))
    | .error e =>
      match e with
      | .clientError status msg =>
        if status = 409 then
          let (t2, r2) := get_default_nar_configuration w environmentCrn cnc
          (t ++ t2, r2.map some)
        else (t, .error (.clientError status msg))
      | _ => (t, .error e)
  else ([], .ok none)

/-- The per-asset size check of the pre-flight validation pass of
`_upload_assets` (`os.stat` plus the `MAX_ASSET_SIZE` comparison). -/
def check_asset_size (w : World) (assetPath : Value) : Except PyError Unit :=
  if w.fileSize (asStr assetPath) > MAX_ASSET_SIZE then
    .error (.dfExtensionError
      ("The file size exceeds the 150 MB limit, file: [" ++ asStr assetPath ++ "]")
      w.workloadServiceName "uploadAsset")
  else .ok ()

/-- Validation pass of `_upload_assets` over one asset-reference list. -/
def validate_paths (w : World) (paths : List Value) : Except PyError Unit :=
  match paths with
  | [] => .ok ()
  | assetPath :: rest =>
    match check_asset_size w assetPath with
    | .error e => .error e
    | .ok () => validate_paths w rest

/-- Validation pass of `_upload_assets` over one group's parameter list. -/
def validate_parameter_assets (w : World) (params : List Value) : Except PyError Unit :=
  match params with
  | [] => .ok ()
  | p :: rest =>
    let assetReferences := dictGetD (asObj p) "assetReferences" .null
    let step := if truthy assetReferences then validate_paths w (asArr assetReferences)
                else .ok ()
    match step with
    | .error e => .error e
    | .ok () => validate_parameter_assets w rest

/-- Validation pass of `_upload_assets` over all parameter groups
(`parameter_group['parameters']` is a direct subscript). -/
def validate_groups (w : World) (groups : List Value) : Except PyError Unit :=
  match groups with
  | [] => .ok ()
  | g :: rest =>
    match dictGet? (asObj g) "parameters" with
    | none => .error (.keyError "parameters")
    | some params =>
      match validate_parameter_assets w (asArr params) with
      | .error e => .error e
      | .ok () => validate_groups w rest

/-- Upload pass of `_upload_assets` over one asset-reference list: upload
each file and build the structured replacement references. -/
def upload_paths (w : World) (deploymentName deploymentRequestCrn groupName paramName : Value)
    (paths : List Value) : Run (List Value) :=
  match paths with
  | [] => ([], .ok [])
  | assetPath :: rest =>
    let assetParams : Dict :=
      [("deploymentName", deploymentName),
       ("deploymentRequestCrn", deploymentRequestCrn),
       ("parameterGroup", groupName),
       ("parameterName", paramName),
       ("filePath", assetPath)]
    let t : List CallRec := [CallRec.upload assetParams]
    match w.uploadAsset assetParams with
    | .error e => (t, .error e)
    | .ok () =>
      let filePath := w.expandPath (asStr assetPath)
      let path := (w.splitPath filePath).1
      let name := (w.splitPath filePath).2
      let assetReference : Value :=
        .obj [("name", .str name), ("path", .str path),
              ("version", .str INITIAL_ASSET_VERSION)]
      let (t2, r2) := upload_paths w deploymentName deploymentRequestCrn groupName
        paramName rest
      (t ++ t2, r2.map fun refs => assetReference :: refs)

/-- Upload pass of `_upload_assets` over one group's parameter list,
rewriting each parameter's `assetReferences` in place. -/
def upload_parameter_assets (w : World)
    (deploymentName deploymentRequestCrn groupName : Value) (params : List Value) :
    Run (List Value) :=
  match params with
  | [] => ([], .ok [])
  | p :: rest =>
    let pobj := asObj p
    let assetReferences := dictGetD pobj "assetReferences" .null
    if truthy assetReferences then
      let paramName := dictGetD pobj "name" .null
      let (t, r) := upload_paths w deploymentName deploymentRequestCrn groupName paramName
        (asArr assetReferences)
      match r with
      | .error e => (t, .error e)
      | .ok updatedAssetReferences =>
        let p' := Value.obj (dictSet pobj "assetReferences" (.arr updatedAssetReferences))
        let (t2, r2) := upload_parameter_assets w deploymentName deploymentRequestCrn
          groupName rest
        (t ++ t2, r2.map fun rest' => p' :: rest')
    else
      let (t2, r2) := upload_parameter_assets w deploymentName deploymentRequestCrn
        groupName rest
      (t2, r2.map fun rest' => p :: rest')

/-- Upload pass of `_upload_assets` over all parameter groups
(`parameter_group['name']` and `['parameters']` are direct subscripts). -/
def upload_groups (w : World) (deploymentName deploymentRequestCrn : Value)
    (groups : List Value) : Run (List Value) :=
  match groups with
  | [] => ([], .ok [])
  | g :: rest =>
    let gobj := asObj g
    match dictGet? gobj "name" with
    | none => ([], .error (.keyError "name"))
    | some groupName =>
      match dictGet? gobj "parameters" with
      | none => ([], .error (.keyError "parameters"))
      | some params =>
        let (t, r) := upload_parameter_assets w deploymentName deploymentRequestCrn
          groupName (asArr params)
        match r with
        | .error e => (t, .error e)
        | .ok params' =>
          let g' := Value.obj (dictSet gobj "parameters" (.arr params'))
          let (t2, r2) := upload_groups w deploymentName deploymentRequestCrn rest
          (t ++ t2, r2.map fun rest' => g' :: rest')

/-- `CreateDeploymentOperationCaller._upload_assets`: pre-flight validation
pass over every asset reference, then the upload pass; the in-place mutation
of `parameters['parameterGroups']` is returned as an updated dict. -/
def upload_assets (w : World) (deploymentRequestCrn : Value) (parameters : Dict) :
    Run Dict :=
  let parameterGroups := dictGetD parameters "parameterGroups" .null
  if truthy parameterGroups then
    let deploymentName := dictGetD parameters "deploymentName" .null
    match validate_groups w (asArr parameterGroups) with
    | .error e => ([], .error e)
    | .ok () =>
      let (t, r) := upload_groups w deploymentName deploymentRequestCrn
        (asArr parameterGroups)
      match r with
      | .error e => (t, .error e)
      | .ok groups' => (t, .ok (dictSet parameters "parameterGroups" (.arr groups')))
  else ([], .ok parameters)

/-- `CreateDeploymentOperationCaller._abort_deployment_request`:
best effort, `ClientError` is only logged. -/
def abort_deployment_request (w : World) (deploymentRequestCrn environmentCrn : Value) :
    Run Unit :=
  let parameters : Dict :=
    [("deploymentRequestCrn", deploymentRequestCrn), ("environmentCrn", environmentCrn)]
  let (t, r) := make_api_call w.dfWorkloadClient "dfworkload" "abortDeploymentRequest"
    parameters
  match r with
  | .ok _ => (t, .ok ())
  | .error (.clientError _ _) => (t, .ok ())
  | .error e => (t, .error e)

/-- `CreateDeploymentOperationCaller._delete_custom_nar_configuration`:
best effort, `ClientError` is only logged; the `crn` and
`configurationVersion` subscripts can raise `KeyError`. -/
def delete_custom_nar_configuration (w : World) (environmentCrn : Value)
    (customNarConfiguration : Dict) : Run Unit :=
  match dictGet? customNarConfiguration "crn" with
  | none => ([], .error (.keyError "crn"))
  | some crn =>
    match dictGet? customNarConfiguration "configurationVersion" with
    | none => ([], .error (.keyError "configurationVersion"))
    | some version =>
      let parameters : Dict :=
        [("customNarConfigurationCrn", crn), ("configurationVersion", version),
         ("environmentCrn", environmentCrn)]
      let (t, r) := make_api_call w.dfWorkloadClient "dfworkload"
        "deleteCustomNarConfiguration" parameters
      match r with
      | .ok _ => (t, .ok ())
      | .error (.clientError _ _) => (t, .ok ())
      | .error e => (t, .error e)

/-- `CreateDeploymentOperationCaller._tear_down`. -/
def tear_down (w : World) (environmentCrn : Value) (customNarConfiguration : Option Dict)
    (deploymentRequestCrn : Value) : Run Unit :=
  let (t1, r1) :=
    if isNull deploymentRequestCrn then ([], .ok ())
    else abort_deployment_request w deploymentRequestCrn environmentCrn
  match r1 with
  | .error e => (t1, .error e)
  | .ok () =>
    match customNarConfiguration with
    | none => (t1, .ok ())
    | some cnc =>
      let (t2, r2) := delete_custom_nar_configuration w environmentCrn cnc
      (t1 ++ t2, r2)

/-- `CreateDeploymentOperationCaller._create_deployment`. -/
def create_deployment (w : World) (deploymentRequestCrn environmentCrn : Value)
    (parameters : Dict) : Run Dict :=
  match get_deployment_configuration deploymentRequestCrn parameters with
  | .error e => ([], .error e)
  | .ok deploymentConfiguration =>
    let (t1, rNar) := process_custom_nar_configuration w environmentCrn parameters
    match rNar with
    | .error e => (t1, .error e)
    | .ok customNarConfiguration =>
      let dcE : Except PyError Dict :=
        match customNarConfiguration with
        | some cnc =>
          match dictGet? cnc "crn" with
          | none => .error (.keyError "crn")
          | some narConfigurationCrn =>
            .ok (dictSet deploymentConfiguration "customNarConfigurationCrn"
              narConfigurationCrn)
        | none => .ok deploymentConfiguration
      match dcE with
      | .error e => (t1, .error e)
      | .ok dc =>
        let dc := dictSet dc "environmentCrn" environmentCrn
        let (t2, r2) := make_api_call w.dfWorkloadClient "dfworkload" "createDeployment" dc
        match r2 with
        | .ok response =>
          let deployment := asObj (dictGetD response "deployment" (.obj []))
          let deploymentCrn := dictGetD deployment "crn" .null
          (t1 ++ t2, .ok [("deploymentCrn", deploymentCrn)])
        | .error e =>
          if isCaught e then
            let (t3, r3) := tear_down w environmentCrn customNarConfiguration
              deploymentRequestCrn
            match r3 with
            | .ok () => (t1 ++ t2 ++ t3, .error e)
            | .error e3 => (t1 ++ t2 ++ t3, .error e3)
          else (t1 ++ t2, .error e)

/-- `CreateDeploymentOperationCaller.invoke`: the whole saga. -/
def invoke (w : World) (parameters : Dict) : Run Dict :=
  let serviceCrn := dictGetD parameters "serviceCrn" .null
  let flowVersionCrn := dictGetD parameters "flowVersionCrn" .null
  let (t1, r1) := initiate_deployment w serviceCrn flowVersionCrn
  match r1 with
  | .error e => (t1, .error e)
  | .ok deploymentRequestCrn =>
    let (t2, r2) := get_environment_crn w serviceCrn
    match r2 with
    | .error e => (t1 ++ t2, .error e)
    | .ok environmentCrn =>
      let t3 : List CallRec := [CallRec.token environmentCrn]
      match w.setToken with
      | .error e => (t1 ++ t2 ++ t3, .error e)
      | .ok () =>
        let (t4, r4) := get_deployment_request_details w deploymentRequestCrn environmentCrn
        match r4 with
        | .error e => (t1 ++ t2 ++ t3 ++ t4, .error e)
        | .ok () =>
          let (t5, r5) := upload_assets w deploymentRequestCrn parameters
          match r5 with
          | .error e =>
            if isCaught e then
              let (t6, r6) := abort_deployment_request w deploymentRequestCrn environmentCrn
              match r6 with
              | .ok () => (t1 ++ t2 ++ t3 ++ t4 ++ t5 ++ t6, .error e)
              | .error e6 => (t1 ++ t2 ++ t3 ++ t4 ++ t5 ++ t6, .error e6)
            else (t1 ++ t2 ++ t3 ++ t4 ++ t5, .error e)
          | .ok parameters' =>
            let (t7, r7) := create_deployment w deploymentRequestCrn environmentCrn
              parameters'
            (t1 ++ t2 ++ t3 ++ t4 ++ t5 ++ t7, r7)

/-! Predicates used to state the claims. -/

/-- Whether a run result is a normal return (no exception). -/
def exceptIsOk {α : Type} : Except PyError α → Bool
  | .ok _ => true
  | .error _ => false

/-- A result that is either a normal return or a `ClientError`
(the error class swallowed by the best-effort compensation handlers). -/
def okOrClientError : Except PyError Dict → Bool
  | .ok _ => true
  | .error (.clientError _ _) => true
  | _ => false

/-- A KPI whose present alert and present frequency tolerance carry the
`unit` and `unit.id` fields that `_process_kpis` reads by subscript
(vacuously true when the alert or tolerance is absent). -/
def kpiUnitPresent (kpi : Value) : Bool :=
  let alert := dictGetD (asObj kpi) "alert" .null
  if truthy alert then
    let frequencyTolerance := dictGetD (asObj alert) "frequencyTolerance" .null
    if truthy frequencyTolerance then
      match dictGet? (asObj frequencyTolerance) "unit" with
      | none => false
      | some unit => (dictGet? (asObj unit) "id").isSome
    else true
  else true

/-- The `alert.frequencyTolerance.unit` object of a KPI. -/
def kpiUnit (kpi : Value) : Value :=
  dictGetD (asObj (dictGetD (asObj (dictGetD (asObj kpi) "alert" .null))
    "frequencyTolerance" .null)) "unit" .null

/-- The structured reference built for an uploaded asset (the loop body of
the upload pass): `name`/`path` are the two components of splitting the
expanded original path, `version` is the initial `"0"`. -/
def structuredAssetReference (w : World) (assetPath : Value) : Value :=
  .obj [("name", .str (w.splitPath (w.expandPath (asStr assetPath))).2),
        ("path", .str (w.splitPath (w.expandPath (asStr assetPath))).1),
        ("version", .str INITIAL_ASSET_VERSION)]

/-- Some asset reference of one parameter exceeds `MAX_ASSET_SIZE`. -/
def parameterHasOversized (w : World) (p : Value) : Bool :=
  let assetReferences := dictGetD (asObj p) "assetReferences" .null
  truthy assetReferences &&
    (asArr assetReferences).any fun path =>
      decide (w.fileSize (asStr path) > MAX_ASSET_SIZE)

/-- Some asset reference across the parameter groups exceeds `MAX_ASSET_SIZE`. -/
def anyOversized (w : World) (groups : List Value) : Bool :=
  groups.any fun g =>
    (asArr (dictGetD (asObj g) "parameters" (.arr []))).any (parameterHasOversized w)

/-- Every parameter group carries the schema-required `parameters` key. -/
def groupsWellFormed (groups : List Value) : Bool :=
  groups.all fun g => (dictGet? (asObj g) "parameters").isSome

/-! Concrete collaborator behaviours used for counterexamples and witnesses. -/

/-- A client answering every call with an empty response object. -/
def okClient : Client := fun _ _ => .ok []

/-- A world in which every collaborator succeeds trivially. -/
def baseWorld : World where
  dfClient := okClient
  dfWorkloadClient := okClient
  setToken := .ok ()
  fileSize := fun _ => 0
  expandPath := fun s => s
  splitPath := fun s => ("", s)
  uploadAsset := fun _ => .ok ()
  workloadServiceName := "dfworkload"

/-- A control-plane client that initiates deployments and lists exactly one
deployable service, `svc-crn` in environment `env-crn`. -/
def cpClient : Client := fun op _ =>
  if op = "initiateDeployment" then .ok [("deploymentRequestCrn", .str "req-crn")]
  else .ok [("services", .arr
    [.obj [("crn", .str "svc-crn"), ("environmentCrn", .str "env-crn")]])]

/-- Request parameters shared by the run scenarios (no optional sections). -/
def runParams : Dict :=
  [("serviceCrn", .str "svc-crn"), ("flowVersionCrn", .str "flow-crn"),
   ("deploymentName", .str "dep")]

/-- Request parameters with a custom NAR configuration section. -/
def narParams : Dict :=
  runParams ++
  [("customNarConfiguration", .obj
    [("username", .str "u"), ("password", .str "p"),
     ("storageLocation", .str "s3a://nar"), ("configurationVersion", .int 1)])]

/-- Request parameters with one parameter group referencing one local asset. -/
def assetParams : Dict :=
  runParams ++
  [("parameterGroups", .arr [.obj [("name", .str "group"),
    ("parameters", .arr [.obj [("name", .str "param"),
      ("assetReferences", .arr [.str "a.bin"])]])]])]

/-- World for the environment-resolution-failure scenario: the service
listing is empty, so no entry matches the requested service. -/
def resolutionFailureWorld : World := { baseWorld with
  dfClient := fun op _ =>
    if op = "initiateDeployment" then .ok [("deploymentRequestCrn", .str "req-crn")]
    else .ok [("services", .arr [])] }

/-- World in which the custom NAR creation call fails with error `e`. -/
def narFailureWorld (e : PyError) : World := { baseWorld with
  dfClient := cpClient
  dfWorkloadClient := fun op _ =>
    if op = "createCustomNarConfiguration" then .error e else .ok [] }

/-- World in which every referenced asset file has size `sz`. -/
def assetSizeWorld (sz : Int) : World := { baseWorld with
  dfClient := cpClient
  fileSize := fun _ => sz }

/-- World in which NAR creation succeeds, the final deployment-creation call
fails with error `e`, and the compensation calls answer `a` (abort) and
`d` (delete). -/
def createFailureWorld (e : PyError) (a d : Except PyError Dict) : World := { baseWorld with
  dfClient := cpClient
  dfWorkloadClient := fun op _ =>
    if op = "createCustomNarConfiguration" then
      .ok [("crn", .str "nar-crn"), ("configurationVersion", .int 3)]
    else if op = "createDeployment" then .error e
    else if op = "abortDeploymentRequest" then a
    else if op = "deleteCustomNarConfiguration" then d
    else .ok [] }

/-- World in which NAR creation conflicts (409) and the default
configuration `nar-crn` at version `7` is fetched and updated. -/
def narConflictWorld : World := { baseWorld with
  dfClient := cpClient
  dfWorkloadClient := fun op _ =>
    if op = "createCustomNarConfiguration" then .error (.clientError 409 "Conflict")
    else if op = "getDefaultCustomNarConfiguration" then
      .ok [("crn", .str "nar-crn"), ("configurationVersion", .int 7)]
    else if op = "updateCustomNarConfiguration" then
      .ok [("crn", .str "nar-crn"), ("configurationVersion", .int 8)]
    else .ok [] }

/-- World in which the final deployment-creation call succeeds with a
response body that carries no `deployment` object. -/
def malformedSuccessWorld : World := { baseWorld with
  dfClient := cpClient
  dfWorkloadClient := fun op _ =>
    if op = "createDeployment" then .ok [("status", .str "OK")] else .ok [] }

/-- World for upload witnesses: expansion prefixes `/home/user/` and path
splitting cuts at the last slash. -/
def uploadWorld : World := { baseWorld with
  dfClient := cpClient
  expandPath := fun s => "/home/user/" ++ s
  splitPath := fun s => ("/home/user", s.drop 11) }

/-- Spec scenario B request parameters: autoscaling enabled with a min
bound of 2 and a zero (falsy) max bound. -/
def scenarioBParams : Dict :=
  [("deploymentName", .str "dep"), ("autoScalingEnabled", .bool true),
   ("autoScaleMinNodes", .int 2), ("autoScaleMaxNodes", .int 0)]

/-- The configuration the builder produces for scenario B. -/
def scenarioBConfiguration : Dict :=
  [("name", .str "dep"), ("deploymentRequestCrn", .str "req-crn"),
   ("configurationVersion", .int 0), ("clusterSizeName", .str "EXTRA_SMALL"),
   ("autoScalingEnabled", .bool true), ("autoScaleMinNodes", .int 2)]

/-- The trace of a `narFailureWorld` run: the saga stops at the failed
custom NAR creation call, with no compensation call after it. -/
def narFailureTrace : List CallRec :=
  [CallRec.api "df" "initiateDeployment"
     [("serviceCrn", .str "svc-crn"), ("flowVersionCrn", .str "flow-crn")],
   CallRec.api "df" "listDeployableServicesForNewDeployments" [],
   CallRec.token (.str "env-crn"),
   CallRec.api "dfworkload" "getDeploymentRequestDetails"
     [("deploymentRequestCrn", .str "req-crn"), ("environmentCrn", .str "env-crn")],
   CallRec.api "dfworkload" "createCustomNarConfiguration"
     [("username", .str "u"), ("password", .str "p"),
      ("storageLocation", .str "s3a://nar"), ("configurationVersion", .int 1),
      ("environmentCrn", .str "env-crn")]]

/-! Lemmas about the dict operations. -/

theorem dictGet?_set_self (d : Dict) (k : String) (v : Value) :
    dictGet? (dictSet d k v) k = some v := by
  induction d with
  | nil => simp [dictSet, dictGet?]
  | cons kv rest ih =>
    obtain ⟨k', v'⟩ := kv
    by_cases hk : k' = k
    · simp [dictSet, hk, dictGet?]
    · simp [dictSet, hk, dictGet?, ih]

theorem dictGet?_set_ne (d : Dict) (k : String) (v : Value) (k2 : String)
    (h : k ≠ k2) : dictGet? (dictSet d k v) k2 = dictGet? d k2 := by
  induction d with
  | nil => simp [dictSet, dictGet?, h]
  | cons kv rest ih =>
    obtain ⟨k', v'⟩ := kv
    by_cases hk : k' = k
    · subst hk
      simp [dictSet, dictGet?, h]
    · simp [dictSet, hk, dictGet?, ih]

theorem dictGet?_del_self (d : Dict) (k : String) :
    dictGet? (dictDel d k) k = none := by
  induction d with
  | nil => simp [dictDel, dictGet?]
  | cons kv rest ih =>
    obtain ⟨k', v'⟩ := kv
    by_cases hk : k' = k
    · simp [dictDel, hk, ih]
    · simp [dictDel, hk, dictGet?, ih]

theorem dictGet?_del_ne (d : Dict) (k k2 : String) (h : k ≠ k2) :
    dictGet? (dictDel d k) k2 = dictGet? d k2 := by
  induction d with
  | nil => simp [dictDel]
  | cons kv rest ih =>
    obtain ⟨k', v'⟩ := kv
    by_cases hk : k' = k
    · subst hk
      simp [dictDel, dictGet?, h, ih]
    · simp [dictDel, hk, dictGet?, ih]

theorem dictGetD_set_self (d : Dict) (k : String) (v dflt : Value) :
    dictGetD (dictSet d k v) k dflt = v := by
  simp [dictGetD, dictGet?_set_self]

theorem dictGetD_set_ne (d : Dict) (k : String) (v : Value) (k2 : String) (dflt : Value)
    (h : k ≠ k2) : dictGetD (dictSet d k v) k2 dflt = dictGetD d k2 dflt := by
  simp [dictGetD, dictGet?_set_ne _ _ _ _ h]

/-! ### C1 — environment resolution failure -/

/-- C1 (counterexample): in a run where environment resolution fails, the
claim says the only remote call so far is the listing call and no
deployment request handle exists; but the recorded trace shows the
`initiateDeployment` call (which creates the request handle) happening
first, before the listing call. -/
theorem C1_counterexample :
    (invoke resolutionFailureWorld runParams).1 =
      [CallRec.api "df" "initiateDeployment"
         [("serviceCrn", .str "svc-crn"), ("flowVersionCrn", .str "flow-crn")],
       CallRec.api "df" "listDeployableServicesForNewDeployments" []] ∧
    (invoke resolutionFailureWorld runParams).2 =
      .error (.dfExtensionError "Environment CRN not found for Service CRN"
        "df" "listDeployableServicesForNewDeployments") := by
  constructor <;> rfl

/-- C1 (amended): when environment resolution fails, exactly two remote
calls have occurred — the `initiateDeployment` call (so a deployment
request handle has already been created) followed by the service listing
call — and the operation fails with the resolution `DfExtensionError`
without performing any compensation call. -/
theorem C1_resolution_failure (w : World) (p : Dict) (resp1 resp2 : Dict)
    (h1 : w.dfClient "initiateDeployment"
      [("serviceCrn", dictGetD p "serviceCrn" .null),
       ("flowVersionCrn", dictGetD p "flowVersionCrn" .null)] = .ok resp1)
    (h2 : w.dfClient "listDeployableServicesForNewDeployments" [] = .ok resp2)
    (h3 : find_environment_crn (asArr (dictGetD resp2 "services" (.arr [])))
      (dictGetD p "serviceCrn" .null) = none) :
    invoke w p =
      ([CallRec.api "df" "initiateDeployment"
          [("serviceCrn", dictGetD p "serviceCrn" .null),
           ("flowVersionCrn", dictGetD p "flowVersionCrn" .null)],
        CallRec.api "df" "listDeployableServicesForNewDeployments" []],
       .error (.dfExtensionError "Environment CRN not found for Service CRN"
         "df" "listDeployableServicesForNewDeployments")) := by
  simp [invoke, initiate_deployment, get_environment_crn, make_api_call, h1, h2, h3]

/-- C1 (witness): the amended theorem applied to the concrete
resolution-failure world. -/
theorem C1_resolution_failure_witness :
    invoke resolutionFailureWorld runParams =
      ([CallRec.api "df" "initiateDeployment"
          [("serviceCrn", .str "svc-crn"), ("flowVersionCrn", .str "flow-crn")],
        CallRec.api "df" "listDeployableServicesForNewDeployments" []],
       .error (.dfExtensionError "Environment CRN not found for Service CRN"
         "df" "listDeployableServicesForNewDeployments")) :=
  C1_resolution_failure resolutionFailureWorld runParams
    [("deploymentRequestCrn", .str "req-crn")] [("services", .arr [])]
    rfl rfl rfl

/-- The trace of an `assetSizeWorld` run with an oversized asset: the saga
stops at the pre-flight size check (no upload call) and then aborts the
deployment request before re-raising. -/
def assetFailureTrace : List CallRec :=
  [CallRec.api "df" "initiateDeployment"
     [("serviceCrn", .str "svc-crn"), ("flowVersionCrn", .str "flow-crn")],
   CallRec.api "df" "listDeployableServicesForNewDeployments" [],
   CallRec.token (.str "env-crn"),
   CallRec.api "dfworkload" "getDeploymentRequestDetails"
     [("deploymentRequestCrn", .str "req-crn"), ("environmentCrn", .str "env-crn")],
   CallRec.api "dfworkload" "abortDeploymentRequest"
     [("deploymentRequestCrn", .str "req-crn"), ("environmentCrn", .str "env-crn")]]

/-- The `DfExtensionError` raised for the oversized asset `a.bin`. -/
def assetTooLargeError : PyError :=
  .dfExtensionError "The file size exceeds the 150 MB limit, file: [a.bin]"
    "dfworkload" "uploadAsset"

/-- The trace of a `createFailureWorld` run: the final deployment-creation
call fails, then compensation aborts the deployment request and deletes
the custom NAR configuration created in this run. -/
def createFailureTrace : List CallRec :=
  [CallRec.api "df" "initiateDeployment"
     [("serviceCrn", .str "svc-crn"), ("flowVersionCrn", .str "flow-crn")],
   CallRec.api "df" "listDeployableServicesForNewDeployments" [],
   CallRec.token (.str "env-crn"),
   CallRec.api "dfworkload" "getDeploymentRequestDetails"
     [("deploymentRequestCrn", .str "req-crn"), ("environmentCrn", .str "env-crn")],
   CallRec.api "dfworkload" "createCustomNarConfiguration"
     [("username", .str "u"), ("password", .str "p"),
      ("storageLocation", .str "s3a://nar"), ("configurationVersion", .int 1),
      ("environmentCrn", .str "env-crn")],
   CallRec.api "dfworkload" "createDeployment"
     [("name", .str "dep"), ("deploymentRequestCrn", .str "req-crn"),
      ("configurationVersion", .int 0), ("clusterSizeName", .str "EXTRA_SMALL"),
      ("staticNodeCount", .int 1), ("customNarConfigurationCrn", .str "nar-crn"),
      ("environmentCrn", .str "env-crn")],
   CallRec.api "dfworkload" "abortDeploymentRequest"
     [("deploymentRequestCrn", .str "req-crn"), ("environmentCrn", .str "env-crn")],
   CallRec.api "dfworkload" "deleteCustomNarConfiguration"
     [("customNarConfigurationCrn", .str "nar-crn"), ("configurationVersion", .int 3),
      ("environmentCrn", .str "env-crn")]]

/-! ### C2 — non-conflict failure of the custom NAR configuration step -/

/-- C2 (counterexample): the claim says a non-409 failure of the custom NAR
configuration step aborts the already-created deployment request before
the error is re-raised; but in a run where NAR creation fails with a 500
`ClientError`, the error propagates unchanged and the trace contains no
`abortDeploymentRequest` call at all. -/
theorem C2_counterexample :
    (invoke (narFailureWorld (.clientError 500 "Server Error")) narParams).2 =
      .error (.clientError 500 "Server Error") ∧
    ((invoke (narFailureWorld (.clientError 500 "Server Error")) narParams).1.all
      fun c => !isAbortCall c) = true := by
  constructor <;> rfl

/-- C2 (amended): when the custom NAR configuration step fails with any
non-conflict error class, the error propagates unchanged to the caller and
triggers no compensation: the run ends at the failed creation call, and in
particular the already-created deployment request handle is never aborted. -/
theorem C2_nar_failure_no_abort (e : PyError) (h : is409 e = false) :
    invoke (narFailureWorld e) narParams = (narFailureTrace, .error e) ∧
    (narFailureTrace.all fun c => !isAbortCall c) = true := by
  refine ⟨?_, by rfl⟩
  cases e with
  | clientError s m =>
    have hs : ¬(s = 409) := by
      simpa [is409] using h
    simp [invoke, initiate_deployment, get_environment_crn, find_environment_crn,
      make_api_call, get_deployment_request_details, upload_assets, create_deployment,
      get_deployment_configuration, process_custom_nar_configuration,
      narFailureWorld, narParams, runParams, cpClient, baseWorld, okClient,
      dictGetD, dictGet?, dictSet, truthy, asObj, asArr, valueBeq, isNull,
      narFailureTrace, Except.map, hs]
  | dfExtensionError a b c => rfl
  | keyError k => rfl

/-- C2 (witness): the amended theorem applied at a concrete 500 error. -/
theorem C2_nar_failure_no_abort_witness :
    invoke (narFailureWorld (.clientError 500 "boom")) narParams =
      (narFailureTrace, .error (.clientError 500 "boom")) ∧
    (narFailureTrace.all fun c => !isAbortCall c) = true :=
  C2_nar_failure_no_abort (.clientError 500 "boom") rfl

/-! ### C3 — pre-flight asset size failure and compensation -/

/-- C3 (counterexample): the claim says the deployment request handle is
NOT aborted when the pre-flight size validation fails; but in a run with a
200 MiB asset, the size `DfExtensionError` is caught by the same handler
as generic remote-call failures and the trace does contain the
`abortDeploymentRequest` compensation call. -/
theorem C3_counterexample :
    (invoke (assetSizeWorld (200 * 1024 * 1024)) assetParams).2 =
      .error assetTooLargeError ∧
    ((invoke (assetSizeWorld (200 * 1024 * 1024)) assetParams).1.any isAbortCall)
      = true := by
  constructor <;> rfl

/-- C3 (amended): a pre-flight asset size failure is handled exactly like a
generic remote-call failure during upload: the `AssetTooLargeError` (a
`DfExtensionError`) is caught, the already-created deployment request is
aborted, and the original error is then re-raised — with no upload call
ever made. -/
theorem C3_size_failure_aborts (sz : Int) (h : sz > MAX_ASSET_SIZE) :
    invoke (assetSizeWorld sz) assetParams = (assetFailureTrace, .error assetTooLargeError) ∧
    (assetFailureTrace.any isAbortCall) = true := by
  refine ⟨?_, by rfl⟩
  simp [invoke, initiate_deployment, get_environment_crn, find_environment_crn,
    make_api_call, get_deployment_request_details, upload_assets, validate_groups,
    validate_parameter_assets, validate_paths, check_asset_size,
    abort_deployment_request, assetSizeWorld, assetParams, runParams, cpClient,
    baseWorld, okClient, dictGetD, dictGet?, truthy, asObj, asArr, asStr, valueBeq,
    assetFailureTrace, assetTooLargeError, isCaught, Except.map, h]

/-- C3 (witness): the amended theorem applied at a concrete 200 MiB size. -/
theorem C3_size_failure_aborts_witness :
    invoke (assetSizeWorld (200 * 1024 * 1024)) assetParams =
      (assetFailureTrace, .error assetTooLargeError) ∧
    (assetFailureTrace.any isAbortCall) = true :=
  C3_size_failure_aborts (200 * 1024 * 1024) (by decide)

/-! ### C4 — compensation after a failed final deployment-creation call -/

theorem isCaught_cases (e : PyError) (h : isCaught e = true) :
    (∃ s m, e = .clientError s m) ∨ ∃ x y z, e = .dfExtensionError x y z := by
  cases e with
  | clientError s m => exact .inl ⟨s, m, rfl⟩
  | dfExtensionError x y z => exact .inr ⟨x, y, z, rfl⟩
  | keyError k => simp [isCaught] at h

theorem okOrClientError_cases (r : Except PyError Dict) (h : okOrClientError r = true) :
    (∃ v, r = .ok v) ∨ ∃ s m, r = .error (.clientError s m) := by
  cases r with
  | ok v => exact .inl ⟨v, rfl⟩
  | error re =>
    cases re with
    | clientError s m => exact .inr ⟨s, m, rfl⟩
    | dfExtensionError x y z => simp [okOrClientError] at h
    | keyError k => simp [okOrClientError] at h

/-- C4: when the final deployment-creation call fails with any caught error
class (for example a 500 `ClientError`) after a custom NAR configuration
was created in this run, compensation aborts the deployment request and
deletes that NAR configuration, and the error surfaced to the caller is
the original failure — whatever the compensation calls answer (success or
any `ClientError`, which is only logged). -/
theorem C4_create_failure_compensates (e : PyError) (a d : Except PyError Dict)
    (he : isCaught e = true) (ha : okOrClientError a = true)
    (hd : okOrClientError d = true) :
    invoke (createFailureWorld e a d) narParams = (createFailureTrace, .error e) := by
  rcases isCaught_cases e he with ⟨s, m, rfl⟩ | ⟨x, y, z, rfl⟩ <;>
    rcases okOrClientError_cases a ha with ⟨av, rfl⟩ | ⟨s2, m2, rfl⟩ <;>
    rcases okOrClientError_cases d hd with ⟨dv, rfl⟩ | ⟨s3, m3, rfl⟩ <;>
    rfl

/-- C4 (witness): a 500 on the final call with both compensation calls
themselves failing with a 502 `ClientError`: both compensations are still
attempted and the surfaced error is the original 500. -/
theorem C4_create_failure_compensates_witness :
    invoke (createFailureWorld (.clientError 500 "Server Error")
        (.error (.clientError 502 "Bad Gateway")) (.error (.clientError 502 "Bad Gateway")))
      narParams = (createFailureTrace, .error (.clientError 500 "Server Error")) :=
  C4_create_failure_compensates (.clientError 500 "Server Error")
    (.error (.clientError 502 "Bad Gateway")) (.error (.clientError 502 "Bad Gateway"))
    rfl rfl rfl

/-! ### C5 — pre-flight validation strictly precedes the upload pass -/

theorem validate_paths_ok (w : World) (paths : List Value)
    (h : (paths.any fun path => decide (w.fileSize (asStr path) > MAX_ASSET_SIZE)) = false) :
    validate_paths w paths = .ok () := by
  induction paths with
  | nil => rfl
  | cons p rest ih =>
    simp only [List.any_cons, Bool.or_eq_false_iff, decide_eq_false_iff_not] at h
    simp [validate_paths, check_asset_size, h.1, ih h.2]

theorem validate_paths_err (w : World) (paths : List Value)
    (h : (paths.any fun path => decide (w.fileSize (asStr path) > MAX_ASSET_SIZE)) = true) :
    ∃ e, validate_paths w paths = .error e ∧ isAssetTooLarge e = true := by
  induction paths with
  | nil => simp at h
  | cons p rest ih =>
    by_cases hp : w.fileSize (asStr p) > MAX_ASSET_SIZE
    · refine ⟨.dfExtensionError
        ("The file size exceeds the 150 MB limit, file: [" ++ asStr p ++ "]")
        w.workloadServiceName "uploadAsset", ?_, rfl⟩
      simp [validate_paths, check_asset_size, hp]
    · simp only [List.any_cons, Bool.or_eq_true_iff, decide_eq_true_eq] at h
      rcases h with h | h
      · exact absurd h hp
      · obtain ⟨e, he, htl⟩ := ih h
        exact ⟨e, by simp [validate_paths, check_asset_size, hp, he], htl⟩

theorem validate_parameter_assets_ok (w : World) (params : List Value)
    (h : params.any (parameterHasOversized w) = false) :
    validate_parameter_assets w params = .ok () := by
  induction params with
  | nil => rfl
  | cons p rest ih =>
    simp only [List.any_cons, Bool.or_eq_false_iff] at h
    by_cases ht : truthy (dictGetD (asObj p) "assetReferences" .null) = true
    · have hrefs : ((asArr (dictGetD (asObj p) "assetReferences" .null)).any
          fun path => decide (w.fileSize (asStr path) > MAX_ASSET_SIZE)) = false := by
        have := h.1
        simpa [parameterHasOversized, ht] using this
      simp [validate_parameter_assets, ht, validate_paths_ok w _ hrefs, ih h.2]
    · simp [validate_parameter_assets, ht, ih h.2]

theorem validate_parameter_assets_err (w : World) (params : List Value)
    (h : params.any (parameterHasOversized w) = true) :
    ∃ e, validate_parameter_assets w params = .error e ∧ isAssetTooLarge e = true := by
  induction params with
  | nil => simp at h
  | cons p rest ih =>
    by_cases hp : parameterHasOversized w p = true
    · have ht : truthy (dictGetD (asObj p) "assetReferences" .null) = true := by
        have := hp
        simp only [parameterHasOversized, Bool.and_eq_true] at this
        exact this.1
      have hrefs : ((asArr (dictGetD (asObj p) "assetReferences" .null)).any
          fun path => decide (w.fileSize (asStr path) > MAX_ASSET_SIZE)) = true := by
        have := hp
        simp only [parameterHasOversized, Bool.and_eq_true] at this
        exact this.2
      obtain ⟨e, he, htl⟩ := validate_paths_err w _ hrefs
      exact ⟨e, by simp [validate_parameter_assets, ht, he], htl⟩
    · simp only [List.any_cons, Bool.or_eq_true_iff] at h
      rcases h with h | h
      · exact absurd h hp
      · obtain ⟨e, he, htl⟩ := ih h
        refine ⟨e, ?_, htl⟩
        by_cases ht : truthy (dictGetD (asObj p) "assetReferences" .null) = true
        · have hrefs : ((asArr (dictGetD (asObj p) "assetReferences" .null)).any
              fun path => decide (w.fileSize (asStr path) > MAX_ASSET_SIZE)) = false := by
            rw [Bool.eq_false_iff]
            intro hcontra
            exact hp (by simp [parameterHasOversized, ht, hcontra])
          simp [validate_parameter_assets, ht, validate_paths_ok w _ hrefs, he]
        · simp [validate_parameter_assets, ht, he]

theorem validate_groups_err (w : World) (groups : List Value)
    (hw : groupsWellFormed groups = true) (ho : anyOversized w groups = true) :
    ∃ e, validate_groups w groups = .error e ∧ isAssetTooLarge e = true := by
  induction groups with
  | nil => simp [anyOversized] at ho
  | cons g rest ih =>
    simp only [groupsWellFormed, List.all_cons, Bool.and_eq_true] at hw
    obtain ⟨params, hp⟩ := Option.isSome_iff_exists.mp hw.1
    have hgetd : dictGetD (asObj g) "parameters" (.arr []) = params := by
      simp [dictGetD, hp]
    by_cases hg : (asArr params).any (parameterHasOversized w) = true
    · obtain ⟨e, he, htl⟩ := validate_parameter_assets_err w _ hg
      exact ⟨e, by simp [validate_groups, hp, he], htl⟩
    · have hrest : anyOversized w rest = true := by
        have := ho
        simp only [anyOversized, List.any_cons, Bool.or_eq_true_iff, hgetd] at this
        rcases this with h | h
        · exact absurd h hg
        · simpa [anyOversized] using h
      obtain ⟨e, he, htl⟩ := ih hw.2 hrest
      refine ⟨e, ?_, htl⟩
      have hok := validate_parameter_assets_ok w (asArr params) (Bool.eq_false_iff.mpr hg)
      simp [validate_groups, hp, hok, he]

theorem truthy_of_asArr_ne_nil (v : Value) (h : asArr v ≠ []) : truthy v = true := by
  cases v <;> simp_all [asArr, truthy]

/-- C5: if any referenced local asset exceeds the 150 MiB ceiling (over
schema-valid parameter groups), `_upload_assets` fails with the
`AssetTooLargeError` class and performs zero remote calls — in particular
zero upload calls: the validation pass completes before the upload pass
begins. -/
theorem C5_oversized_asset_blocks_upload (w : World) (deploymentRequestCrn : Value)
    (parameters : Dict)
    (hw : groupsWellFormed (asArr (dictGetD parameters "parameterGroups" .null)) = true)
    (ho : anyOversized w (asArr (dictGetD parameters "parameterGroups" .null)) = true) :
    (upload_assets w deploymentRequestCrn parameters).1 = [] ∧
    ∃ e, (upload_assets w deploymentRequestCrn parameters).2 = .error e ∧
      isAssetTooLarge e = true := by
  have hne : asArr (dictGetD parameters "parameterGroups" .null) ≠ [] := by
    intro hnil
    rw [hnil] at ho
    simp [anyOversized] at ho
  have ht := truthy_of_asArr_ne_nil _ hne
  obtain ⟨e, he, htl⟩ := validate_groups_err w _ hw ho
  constructor
  · simp [upload_assets, ht, he]
  · exact ⟨e, by simp [upload_assets, ht, he], htl⟩

/-- C5 (witness): the theorem applied to the concrete 200 MiB-asset world. -/
theorem C5_oversized_asset_blocks_upload_witness :
    (upload_assets (assetSizeWorld (200 * 1024 * 1024)) (.str "req-crn") assetParams).1
      = [] ∧
    ∃ e, (upload_assets (assetSizeWorld (200 * 1024 * 1024)) (.str "req-crn")
        assetParams).2 = .error e ∧ isAssetTooLarge e = true :=
  C5_oversized_asset_blocks_upload (assetSizeWorld (200 * 1024 * 1024))
    (.str "req-crn") assetParams rfl rfl

/-! ### C6 — mutual exclusion of static node count and autoscaling -/

theorem dictGet?_ite (c : Prop) [Decidable c] (a b : Dict) (k : String) :
    dictGet? (if c then a else b) k = if c then dictGet? a k else dictGet? b k := by
  split <;> rfl

theorem dictGet?_setIfNotNull_ne (d : Dict) (k : String) (v : Value) (k2 : String)
    (h : k ≠ k2) : dictGet? (setIfNotNull d k v) k2 = dictGet? d k2 := by
  unfold setIfNotNull
  split
  · rfl
  · exact dictGet?_set_ne d k v k2 h

theorem dictGet?_setIfTruthy_ne (d : Dict) (k : String) (v : Value) (k2 : String)
    (h : k ≠ k2) : dictGet? (setIfTruthy d k v) k2 = dictGet? d k2 := by
  unfold setIfTruthy
  split
  · exact dictGet?_set_ne d k v k2 h
  · rfl

theorem dictGet?_setIfTruthy_self (d : Dict) (k : String) (v : Value) :
    dictGet? (setIfTruthy d k v) k =
      if truthy v = true then some v else dictGet? d k := by
  by_cases ht : truthy v = true
  · simp [setIfTruthy, ht, dictGet?_set_self]
  · simp [setIfTruthy, ht]

/-- C6: in every configuration the builder returns, if autoscaling is
truthy the `staticNodeCount` field is absent and each autoscale bound is
included exactly when it is truthy (a 0 or absent bound is omitted); if
autoscaling is absent or disabled, `staticNodeCount` is present (default
1 if unset) and no bound field is included. -/
theorem C6_autoscaling_excludes_static (deploymentRequestCrn : Value)
    (parameters : Dict) (dc : Dict)
    (h : get_deployment_configuration deploymentRequestCrn parameters = .ok dc) :
    (truthy (dictGetD parameters "autoScalingEnabled" .null) = true →
       dictGet? dc "staticNodeCount" = none ∧
       dictGet? dc "autoScaleMinNodes" =
         (if truthy (dictGetD parameters "autoScaleMinNodes" .null) = true
          then some (dictGetD parameters "autoScaleMinNodes" .null) else none) ∧
       dictGet? dc "autoScaleMaxNodes" =
         (if truthy (dictGetD parameters "autoScaleMaxNodes" .null) = true
          then some (dictGetD parameters "autoScaleMaxNodes" .null) else none)) ∧
    (truthy (dictGetD parameters "autoScalingEnabled" .null) = false →
       dictGet? dc "staticNodeCount" =
         some (dictGetD parameters "staticNodeCount" (.int 1)) ∧
       dictGet? dc "autoScaleMinNodes" = none ∧
       dictGet? dc "autoScaleMaxNodes" = none) := by
  simp only [get_deployment_configuration] at h
  split at h
  · split at h
    · simp at h
    · injection h with h
      subst h
      constructor
      · intro hase
        refine ⟨?_, ?_, ?_⟩ <;>
          simp [dictGet?_setIfNotNull_ne, dictGet?_setIfTruthy_ne,
            dictGet?_setIfTruthy_self, applyAutoscaling, applyInboundHostname,
            dictGet?_ite, dictGet?_set_self, dictGet?_set_ne, dictGet?_del_self,
            dictGet?_del_ne, ite_self, dictGet?, hase]
      · intro hase
        refine ⟨?_, ?_, ?_⟩ <;>
          simp [dictGet?_setIfNotNull_ne, dictGet?_setIfTruthy_ne,
            dictGet?_setIfTruthy_self, applyAutoscaling, applyInboundHostname,
            dictGet?_ite, dictGet?_set_self, dictGet?_set_ne, dictGet?_del_self,
            dictGet?_del_ne, ite_self, dictGet?, hase]
  · injection h with h
    subst h
    constructor
    · intro hase
      refine ⟨?_, ?_, ?_⟩ <;>
        simp [dictGet?_setIfNotNull_ne, dictGet?_setIfTruthy_ne,
          dictGet?_setIfTruthy_self, applyAutoscaling, applyInboundHostname,
          dictGet?_ite, dictGet?_set_self, dictGet?_set_ne, dictGet?_del_self,
          dictGet?_del_ne, ite_self, dictGet?, hase]
    · intro hase
      refine ⟨?_, ?_, ?_⟩ <;>
        simp [dictGet?_setIfNotNull_ne, dictGet?_setIfTruthy_ne,
          dictGet?_setIfTruthy_self, applyAutoscaling, applyInboundHostname,
          dictGet?_ite, dictGet?_set_self, dictGet?_set_ne, dictGet?_del_self,
          dictGet?_del_ne, ite_self, dictGet?, hase]

/-- C6 (witness): spec scenario B — `autoScalingEnabled=true`,
`autoScaleMinNodes=2`, `autoScaleMaxNodes=0`: `staticNodeCount` is
removed, the min bound is kept and the zero max bound is omitted. -/
theorem C6_autoscaling_excludes_static_witness :
    dictGet? scenarioBConfiguration "staticNodeCount" = none ∧
    dictGet? scenarioBConfiguration "autoScaleMinNodes" = some (Value.int 2) ∧
    dictGet? scenarioBConfiguration "autoScaleMaxNodes" = none :=
  (C6_autoscaling_excludes_static (.str "req-crn") scenarioBParams
    scenarioBConfiguration rfl).1 rfl

/-! ### C7 — conflict on NAR creation adopts the default configuration -/

/-- C7: when the custom NAR creation call fails with status 409, the
manager fetches the environment's default configuration, copies its `crn`
and `configurationVersion` onto the caller's requested object (keeping
every other field of the request, in particular the caller's credentials),
issues the update call exactly once with that object, and returns the
updated resource; the 409 never surfaces (the step returns normally). -/
theorem C7_nar_conflict_adopts_default (w : World) (environmentCrn : Value)
    (parameters : Dict) (defaultConfiguration updated : Dict) (msg : String)
    (cnc1 cnc2 : Dict)
    (hc1 : cnc1 = dictSet (asObj (dictGetD parameters "customNarConfiguration" .null))
      "environmentCrn" environmentCrn)
    (hc2 : cnc2 = dictSet (dictSet cnc1 "crn" (dictGetD defaultConfiguration "crn" .null))
      "configurationVersion" (dictGetD defaultConfiguration "configurationVersion" .null))
    (ht : truthy (dictGetD parameters "customNarConfiguration" .null) = true)
    (h1 : w.dfWorkloadClient "createCustomNarConfiguration" cnc1 =
      .error (.clientError 409 msg))
    (h2 : w.dfWorkloadClient "getDefaultCustomNarConfiguration"
      [("environmentCrn", environmentCrn)] = .ok defaultConfiguration)
    (h3 : w.dfWorkloadClient "updateCustomNarConfiguration" cnc2 = .ok updated) :
    process_custom_nar_configuration w environmentCrn parameters =
      ([CallRec.api "dfworkload" "createCustomNarConfiguration" cnc1,
        CallRec.api "dfworkload" "getDefaultCustomNarConfiguration"
          [("environmentCrn", environmentCrn)],
        CallRec.api "dfworkload" "updateCustomNarConfiguration" cnc2],
       .ok (some updated)) ∧
    dictGet? cnc2 "crn" = some (dictGetD defaultConfiguration "crn" .null) ∧
    dictGet? cnc2 "configurationVersion" =
      some (dictGetD defaultConfiguration "configurationVersion" .null) ∧
    ∀ k, k ≠ "crn" → k ≠ "configurationVersion" → k ≠ "environmentCrn" →
      dictGet? cnc2 k =
        dictGet? (asObj (dictGetD parameters "customNarConfiguration" .null)) k := by
  subst hc2
  subst hc1
  refine ⟨?_, ?_, ?_, ?_⟩
  · simp [process_custom_nar_configuration, get_default_nar_configuration,
      make_api_call, ht, h1, h2, h3, Except.map]
  · rw [dictGet?_set_ne _ _ _ _ (by decide), dictGet?_set_self]
  · rw [dictGet?_set_self]
  · intro k hk1 hk2 hk3
    rw [dictGet?_set_ne _ _ _ _ (Ne.symm hk2), dictGet?_set_ne _ _ _ _ (Ne.symm hk1),
      dictGet?_set_ne _ _ _ _ (Ne.symm hk3)]

/-- C7 (witness): the theorem applied to the concrete conflict world, in
which the default configuration `nar-crn` at version 7 is adopted. -/
theorem C7_nar_conflict_adopts_default_witness :
    process_custom_nar_configuration narConflictWorld (.str "env-crn") narParams =
      ([CallRec.api "dfworkload" "createCustomNarConfiguration"
          [("username", .str "u"), ("password", .str "p"),
           ("storageLocation", .str "s3a://nar"), ("configurationVersion", .int 1),
           ("environmentCrn", .str "env-crn")],
        CallRec.api "dfworkload" "getDefaultCustomNarConfiguration"
          [("environmentCrn", .str "env-crn")],
        CallRec.api "dfworkload" "updateCustomNarConfiguration"
          [("username", .str "u"), ("password", .str "p"),
           ("storageLocation", .str "s3a://nar"), ("configurationVersion", .int 7),
           ("environmentCrn", .str "env-crn"), ("crn", .str "nar-crn")]],
       .ok (some [("crn", .str "nar-crn"), ("configurationVersion", .int 8)])) ∧
    dictGet? [("username", Value.str "u"), ("password", Value.str "p"),
       ("storageLocation", Value.str "s3a://nar"), ("configurationVersion", Value.int 7),
       ("environmentCrn", Value.str "env-crn"), ("crn", Value.str "nar-crn")] "crn"
      = some (.str "nar-crn") ∧
    dictGet? [("username", Value.str "u"), ("password", Value.str "p"),
       ("storageLocation", Value.str "s3a://nar"), ("configurationVersion", Value.int 7),
       ("environmentCrn", Value.str "env-crn"), ("crn", Value.str "nar-crn")]
      "configurationVersion" = some (.int 7) ∧
    dictGet? [("username", Value.str "u"), ("password", Value.str "p"),
       ("storageLocation", Value.str "s3a://nar"), ("configurationVersion", Value.int 7),
       ("environmentCrn", Value.str "env-crn"), ("crn", Value.str "nar-crn")]
      "username" =
      dictGet? [("username", Value.str "u"), ("password", Value.str "p"),
         ("storageLocation", Value.str "s3a://nar"),
         ("configurationVersion", Value.int 1)] "username" := by
  have h := C7_nar_conflict_adopts_default narConflictWorld (.str "env-crn") narParams
    [("crn", .str "nar-crn"), ("configurationVersion", .int 7)]
    [("crn", .str "nar-crn"), ("configurationVersion", .int 8)]
    "Conflict" _ _ rfl rfl rfl rfl rfl rfl
  exact ⟨h.1, h.2.1, h.2.2.1, h.2.2.2 "username" (by decide) (by decide) (by decide)⟩

/-! ### C8 — structured replacement of uploaded asset references -/

/-- C8: whenever the upload pass over an asset-reference list returns
normally, every reference has been replaced by the structured form whose
`version` is the string `"0"` and whose `name` and `path` are the
file-name and directory components of splitting the canonically expanded
original path. -/
theorem C8_upload_replaces_references (w : World)
    (deploymentName deploymentRequestCrn groupName paramName : Value)
    (paths : List Value) (t : List CallRec) (refs : List Value)
    (h : upload_paths w deploymentName deploymentRequestCrn groupName paramName paths
      = (t, .ok refs)) :
    refs = paths.map (structuredAssetReference w) := by
  induction paths generalizing t refs with
  | nil =>
    simp only [upload_paths, Prod.mk.injEq, Except.ok.injEq] at h
    simp [← h.2]
  | cons p rest ih =>
    rcases hrec : upload_paths w deploymentName deploymentRequestCrn groupName paramName
      rest with ⟨t2, r2⟩
    cases hu : w.uploadAsset
        [("deploymentName", deploymentName),
         ("deploymentRequestCrn", deploymentRequestCrn),
         ("parameterGroup", groupName),
         ("parameterName", paramName),
         ("filePath", p)] with
    | error e =>
      simp [upload_paths, hu, Prod.mk.injEq] at h
    | ok u =>
      cases r2 with
      | error e2 =>
        simp [upload_paths, hu, hrec, Except.map, Prod.mk.injEq] at h
      | ok refs2 =>
        simp only [upload_paths, hu, hrec, Except.map, Prod.mk.injEq,
          Except.ok.injEq] at h
        obtain ⟨ht, hrefs⟩ := h
        subst hrefs
        rw [List.map_cons, ih t2 refs2 hrec]
        rfl

/-- C8 (witness): the theorem applied to one concrete upload of `a.bin`
in `uploadWorld` (expansion `/home/user/a.bin`, split into `/home/user`
and `a.bin`). -/
theorem C8_upload_replaces_references_witness :
    [Value.obj [("name", .str "a.bin"), ("path", .str "/home/user"),
       ("version", .str "0")]] =
      [Value.str "a.bin"].map (structuredAssetReference uploadWorld) :=
  C8_upload_replaces_references uploadWorld (.str "dep") (.str "req-crn")
    (.str "group") (.str "param") [.str "a.bin"]
    [CallRec.upload
      [("deploymentName", .str "dep"), ("deploymentRequestCrn", .str "req-crn"),
       ("parameterGroup", .str "group"), ("parameterName", .str "param"),
       ("filePath", .str "a.bin")]]
    [Value.obj [("name", .str "a.bin"), ("path", .str "/home/user"),
       ("version", .str "0")]]
    rfl

/-! ### C9 — failure modes of the KPI normalizer -/

theorem asObj_obj (fs : List (String × Value)) : asObj (.obj fs) = fs := rfl

theorem process_kpi_isOk (kpi : Value) :
    exceptIsOk (process_kpi kpi) = kpiUnitPresent kpi := by
  simp only [process_kpi, kpiUnitPresent]
  split
  · split
    · split
      · rfl
      · split
        · simp_all [exceptIsOk]
        · simp_all [exceptIsOk]
    · rfl
  · rfl

theorem process_kpis_isOk (kpis : List Value) :
    exceptIsOk (process_kpis kpis) = kpis.all kpiUnitPresent := by
  induction kpis with
  | nil => rfl
  | cons k rest ih =>
    have hk' := process_kpi_isOk k
    simp only [process_kpis, List.all_cons]
    cases hk : process_kpi k with
    | error e =>
      rw [hk] at hk'
      rw [← hk']
      simp [exceptIsOk]
    | ok k2 =>
      rw [hk] at hk'
      rw [← hk']
      cases hrest : process_kpis rest with
      | error e2 =>
        rw [hrest] at ih
        rw [← ih]
        simp [exceptIsOk]
      | ok rest2 =>
        rw [hrest] at ih
        rw [← ih]
        simp [exceptIsOk]

/-- C9 (counterexample): the claim says the normalizer has no failure
modes and skips absent fields; but a KPI whose present frequency
tolerance lacks the `unit` field makes `_process_kpis` raise an uncaught
`KeyError` from the direct `frequency_tolerance['unit']` subscript. -/
theorem C9_counterexample :
    process_kpis [.obj [("metricId", .str "cpu"),
      ("alert", .obj [("frequencyTolerance", .obj [("value", .int 5)])])]] =
      .error (.keyError "unit") := rfl

/-- C9 (amended): the normalizer skips KPIs whose alert or frequency
tolerance is absent (falsy) and, for each KPI with both present and a
`unit` carrying an `id`, sets `unit.label = capitalize(id)` and
`unit.abbreviation = lowercase(firstCharacter(id))`; however an absent
`unit` (or absent `unit.id`) inside a present frequency tolerance is NOT
skipped: the run succeeds exactly when every such KPI carries
`unit`/`unit.id`, and fails with a `KeyError` otherwise. -/
theorem C9_normalizer_requires_unit (kpis : List Value) (kpi kpi' : Value) :
    exceptIsOk (process_kpis kpis) = kpis.all kpiUnitPresent ∧
    (truthy (dictGetD (asObj kpi) "alert" .null) = false →
      process_kpi kpi = .ok kpi) ∧
    (truthy (dictGetD (asObj kpi) "alert" .null) = true →
     truthy (dictGetD (asObj (dictGetD (asObj kpi) "alert" .null))
       "frequencyTolerance" .null) = false →
      process_kpi kpi = .ok kpi) ∧
    (process_kpi kpi = .ok kpi' →
     truthy (dictGetD (asObj kpi) "alert" .null) = true →
     truthy (dictGetD (asObj (dictGetD (asObj kpi) "alert" .null))
       "frequencyTolerance" .null) = true →
      dictGetD (asObj (kpiUnit kpi')) "label" .null =
        .str (pyCapitalize (asStr (dictGetD (asObj (kpiUnit kpi)) "id" .null))) ∧
      dictGetD (asObj (kpiUnit kpi')) "abbreviation" .null =
        .str (pyFirstLower (asStr (dictGetD (asObj (kpiUnit kpi)) "id" .null)))) := by
  refine ⟨process_kpis_isOk kpis, ?_, ?_, ?_⟩
  · intro h1
    simp [process_kpi, h1]
  · intro h1 h2
    simp [process_kpi, h1, h2]
  · intro hok h1 h2
    cases hu : dictGet? (asObj (dictGetD (asObj (dictGetD (asObj kpi) "alert" .null))
        "frequencyTolerance" .null)) "unit" with
    | none =>
      simp [process_kpi, h1, h2, hu] at hok
    | some unit =>
      cases hid : dictGet? (asObj unit) "id" with
      | none =>
        simp [process_kpi, h1, h2, hu, hid] at hok
      | some idv =>
        simp only [process_kpi, h1, h2, hu, hid, if_true, Except.ok.injEq] at hok
        subst hok
        simp only [dictGetD] at hu
        constructor
        · simp [kpiUnit, dictGetD, asObj_obj, dictGet?_set_self, dictGet?_set_ne,
            hu, hid]
        · simp [kpiUnit, dictGetD, asObj_obj, dictGet?_set_self, dictGet?_set_ne,
            hu, hid]

/-- C9 (witness): the amended theorem applied to a singleton KPI list with
a complete unit (id `SECONDS`) and to a KPI with no alert. -/
theorem C9_normalizer_requires_unit_witness :
    exceptIsOk (process_kpis [.obj [("metricId", .str "cpu"),
        ("alert", .obj [("frequencyTolerance", .obj [("value", .int 5),
          ("unit", .obj [("id", .str "SECONDS")])])])]]) =
      ([Value.obj [("metricId", .str "cpu"),
        ("alert", .obj [("frequencyTolerance", .obj [("value", .int 5),
          ("unit", .obj [("id", .str "SECONDS")])])])]].all kpiUnitPresent) ∧
    process_kpi (.obj [("metricId", .str "mem")]) = .ok (.obj [("metricId", .str "mem")]) := by
  have h := C9_normalizer_requires_unit
    [.obj [("metricId", .str "cpu"),
      ("alert", .obj [("frequencyTolerance", .obj [("value", .int 5),
        ("unit", .obj [("id", .str "SECONDS")])])])]]
    (.obj [("metricId", .str "mem")]) .null
  exact ⟨h.1, h.2.1 rfl⟩

/-! ### C10 — success with a malformed response body -/

/-- C10: when the final `createDeployment` remote call returns normally but
its response body lacks the `deployment` object (or that object lacks a
`crn`), the operation still completes as a success returning
`{deploymentCrn: None}`: no error is raised and no compensation call is
made (the trace holds the single creation call). -/
theorem C10_malformed_success_returns_null_crn (w : World)
    (deploymentRequestCrn environmentCrn : Value) (parameters : Dict)
    (dc resp : Dict)
    (h1 : get_deployment_configuration deploymentRequestCrn parameters = .ok dc)
    (h2 : truthy (dictGetD parameters "customNarConfiguration" .null) = false)
    (h3 : w.dfWorkloadClient "createDeployment"
      (dictSet dc "environmentCrn" environmentCrn) = .ok resp)
    (h4 : dictGetD (asObj (dictGetD resp "deployment" (.obj []))) "crn" .null = .null) :
    create_deployment w deploymentRequestCrn environmentCrn parameters =
      ([CallRec.api "dfworkload" "createDeployment"
          (dictSet dc "environmentCrn" environmentCrn)],
       .ok [("deploymentCrn", Value.null)]) := by
  simp [create_deployment, process_custom_nar_configuration, make_api_call,
    h1, h2, h3, h4]

/-- C10 (witness): the theorem applied to the concrete world whose
`createDeployment` response is `{status: OK}` with no `deployment` object. -/
theorem C10_malformed_success_returns_null_crn_witness :
    create_deployment malformedSuccessWorld (.str "req-crn") (.str "env-crn") runParams =
      ([CallRec.api "dfworkload" "createDeployment"
          [("name", .str "dep"), ("deploymentRequestCrn", .str "req-crn"),
           ("configurationVersion", .int 0), ("clusterSizeName", .str "EXTRA_SMALL"),
           ("staticNodeCount", .int 1), ("environmentCrn", .str "env-crn")]],
       .ok [("deploymentCrn", Value.null)]) :=
  C10_malformed_success_returns_null_crn malformedSuccessWorld (.str "req-crn")
    (.str "env-crn") runParams
    [("name", .str "dep"), ("deploymentRequestCrn", .str "req-crn"),
     ("configurationVersion", .int 0), ("clusterSizeName", .str "EXTRA_SMALL"),
     ("staticNodeCount", .int 1)]
    [("status", .str "OK")]
    rfl rfl rfl rfl

end Cdpcli
